import Mathlib

/-!
Shallow embedding of the speaker-attribution core of `whisperx_cli.py`:
the data model (transcript segments, speaker turns), the overlap/attribution
logic (`align_transcription_with_speakers`), the diarization ingestion
(`diarize_audio`), the orchestrator's diarization-load error handling
(`load_diarization_model` + `main`), output suppression (`suppress_output`,
`maybe_call`), SRT time formatting (`seconds_to_srt_time`) and result export
(`save_results`).  Real-valued seconds are embedded as rationals.
-/

namespace WhisperX

/-- A diarization speaker turn: dict with keys `start`, `end`, `speaker`
as built in `diarize_audio` (`end` is a Lean keyword, rendered `stop`). -/
structure SpeakerTurn where
  start : ℚ
  stop : ℚ
  speaker : String
  deriving DecidableEq, Repr

/-- A transcription segment as built in `transcribe_audio` restricted to the
fields the fusion core reads or writes: `start`, `end` (rendered `stop`),
`text`, and the optional `speaker` key (absent until attribution sets it). -/
structure Segment where
  start : ℚ
  stop : ℚ
  text : String
  speaker : Option String
  deriving DecidableEq, Repr

/-- The transcription result dict restricted to the fields the fusion core
and the exporter read: the ordered segment list and the detected language. -/
structure Transcription where
  segments : List Segment
  language : String
  deriving DecidableEq, Repr

/-- The inner loop of `align_transcription_with_speakers`: for one segment,
collect `(speaker, overlap_duration)` for every turn passing the overlap test
`segment_start < spk_end and segment_end > spk_start`, in turn order. -/
def overlappingSpeakers (seg : Segment) (turns : List SpeakerTurn) :
    List (String × ℚ) :=
  turns.filterMap fun t =>
    if seg.start < t.stop ∧ seg.stop > t.start then
      some (t.speaker, min seg.stop t.stop - max seg.start t.start)
    else
      none

/-- Python's `max(xs, key=lambda x: x[1])` on a list of pairs: the first pair
whose second component is maximal (later elements replace the running best
only when strictly greater); `none` on the empty list (Python would raise). -/
def pyMaxBySnd : List (String × ℚ) → Option (String × ℚ)
  | [] => none
  | x :: xs => some (xs.foldl (fun best y => if y.2 > best.2 then y else best) x)

/-- The per-segment body of `align_transcription_with_speakers`: both Python
branches assign `segment["speaker"]` — to `max(overlapping_speakers,
key=lambda x: x[1])[0]` when the list is non-empty, to `"UNKNOWN"` when no
turn passed the overlap test. -/
def assignSpeaker (seg : Segment) (turns : List SpeakerTurn) : Segment :=
  { seg with
    speaker := some (match pyMaxBySnd (overlappingSpeakers seg turns) with
      | some best => best.1
      | none => "UNKNOWN") }

/-- `WhisperDiarizeProcessor.align_transcription_with_speakers`.  The Python
argument `diarization` is `None` or the dict `{"diarization": turns}`; the
guard `if not diarization` fires exactly on `None` (the dict is non-empty,
hence truthy, even when the turn list inside it is empty). -/
def align_transcription_with_speakers (transcription : Transcription)
    (diarization : Option (List SpeakerTurn)) : Transcription :=
  match diarization with
  | none => transcription
  | some turns =>
      { transcription with
        segments := transcription.segments.map fun s => assignSpeaker s turns }

/-- Overlap duration of a segment and a turn as the spec defines it:
`o = max(0, min(s_end, t_end) - max(s_start, t_start))`.  Used only to state
the claims; the code embedding is `overlappingSpeakers`/`assignSpeaker`. -/
def overlapDur (seg : Segment) (t : SpeakerTurn) : ℚ :=
  max 0 (min seg.stop t.stop - max seg.start t.start)

/-- Accumulated overlap of a segment with all turns carrying one given label,
as the spec's Overlap Resolver demands (summed per distinct speaker).  Used
only to state the claims. -/
def accumOverlap (label : String) (seg : Segment) (turns : List SpeakerTurn) : ℚ :=
  (turns.filter (fun t => t.speaker = label)).foldl
    (fun acc t => acc + overlapDur seg t) 0

/-- Error classes of a diarization backend failure, as the spec's taxonomy
splits `DiarizationError`: credential-related versus everything else. -/
inductive DiarizationError where
  | credential
  | other
  deriving DecidableEq, Repr

/-- An opaque handle for a loaded diarization pipeline
(`Pipeline.from_pretrained` result). -/
structure Pipeline where
  name : String
  deriving DecidableEq, Repr

/-- The orchestrator's diarization-load behaviour: `main` calls
`load_diarization_model` exactly once, whose body invokes the backend load
(`Pipeline.from_pretrained`) at most once inside `try/except`, converting any
exception — whatever its class — into `diarization_pipeline = None`.  The
environment is modelled as the stream of outcomes successive backend load
attempts would produce; the second component counts how many attempts the
code actually consumes.  An empty `hf_token` returns before any attempt. -/
def load_diarization_model (hf_token : String)
    (attempts : List (Except DiarizationError Pipeline)) :
    Option Pipeline × Nat :=
  if hf_token = "" then (none, 0)
  else
    match attempts with
    | [] => (none, 0)
    | a :: _ =>
        match a with
        | .ok p => (some p, 1)
        | .error _ => (none, 1)

/-- Modelled from the spec (not present in the code): the credential retry of
spec section 4.3 — on a credential failure, prompt once and retry the load
exactly once with the replacement credential, falling back only if the retry
also fails; non-credential failures fall back immediately.  Stated over the
same attempt-stream model for comparison with `load_diarization_model`. -/
def specLoadDiarizerRetry (hf_token : String)
    (attempts : List (Except DiarizationError Pipeline)) :
    Option Pipeline × Nat :=
  if hf_token = "" then (none, 0)
  else
    match attempts with
    | [] => (none, 0)
    | .ok p :: _ => (some p, 1)
    | .error .other :: _ => (none, 1)
    | .error .credential :: rest =>
        match rest with
        | [] => (none, 1)
        | .ok p :: _ => (some p, 2)
        | .error _ :: _ => (none, 2)

/-- `WhisperDiarizeProcessor.diarize_audio`: returns `None` when no pipeline
is loaded or when the backend raises; otherwise converts every track produced
by the backend verbatim into a `{"start", "end", "speaker"}` dict — with no
validation of any kind — and wraps the list as `{"diarization": ...}`. -/
def diarize_audio (pipeline : Option Pipeline)
    (backendResult : Except String (List SpeakerTurn)) :
    Option (List SpeakerTurn) :=
  match pipeline with
  | none => none
  | some _ =>
      match backendResult with
      | .error _ => none
      | .ok tracks =>
          some (tracks.map fun t =>
            { start := t.start, stop := t.stop, speaker := t.speaker })

/-- Where `sys.stdout` currently points: the real standard output, or a
throwaway `StringIO` buffer installed by `suppress_output`. -/
inductive Target where
  | real
  | buffer
  deriving DecidableEq, Repr

/-- The observable output state: the current `sys.stdout` target, the text
lines so far on the real standard output, and the text captured by the
currently installed buffer (garbage once the call returns). -/
structure OutState where
  target : Target
  realOut : List String
  bufOut : List String
  deriving DecidableEq, Repr

/-- A wrapped backend call: the text it prints to `sys.stdout` while running,
and its outcome (a return value or a raised exception). -/
structure PyFunc (E A : Type) where
  writes : List String
  outcome : Except E A

/-- Running a wrapped call directly: its prints go to wherever `sys.stdout`
currently points, and its outcome is passed through. -/
def runFunc {E A : Type} (f : PyFunc E A) (st : OutState) :
    Except E A × OutState :=
  match st.target with
  | .real => (f.outcome, { st with realOut := st.realOut ++ f.writes })
  | .buffer => (f.outcome, { st with bufOut := st.bufOut ++ f.writes })

/-- `suppress_output`: save `sys.stdout`, install a fresh `StringIO`, run the
function, and in a `finally` block restore the saved stream on every exit
path; the function's outcome (value or exception) is passed through. -/
def suppress_output {E A : Type} (f : PyFunc E A) (st : OutState) :
    Except E A × OutState :=
  let old := st.target
  let redirected : OutState := { st with target := Target.buffer, bufOut := [] }
  let run := runFunc f redirected
  (run.1, { run.2 with target := old })

/-- `maybe_call`: run the function directly in debug mode, under
`suppress_output` otherwise. -/
def maybe_call {E A : Type} (f : PyFunc E A) (debug : Bool) (st : OutState) :
    Except E A × OutState :=
  if debug then runFunc f st else suppress_output f st

/-- Python `int(q)` on a real value: truncation toward zero. -/
def pyTrunc (q : ℚ) : ℤ :=
  if q < 0 then -⌊-q⌋ else ⌊q⌋

/-- Python `a % b` for a positive real divisor `b`: the remainder
`a - b * floor(a / b)`, always in `[0, b)`. -/
def pyMod (a b : ℚ) : ℚ :=
  a - b * ⌊a / b⌋

/-- Left-pad a digit string with zeros to the given width (no-op when the
string is already at least that wide). -/
def padZeros (s : String) (w : Nat) : String :=
  String.mk (List.replicate (w - s.length) '0') ++ s

/-- Python's `f"{n:0w}"` on an int: zero-pad to width `w`, the zeros going
after the minus sign of a negative number. -/
def pyFormatInt (n : ℤ) (w : Nat) : String :=
  if n < 0 then "-" ++ padZeros (toString (-n).toNat) (w - 1)
  else padZeros (toString n.toNat) w

/-- `seconds_to_srt_time`: hours, minutes, seconds via Python floor-division
and modulo, milliseconds via `int()` truncation of `(seconds - int(seconds))
* 1000`, formatted `HH:MM:SS,mmm` with widths 2,2,2,3. -/
def seconds_to_srt_time (seconds : ℚ) : String :=
  let hours : ℤ := ⌊seconds / 3600⌋
  let minutes : ℤ := ⌊pyMod seconds 3600 / 60⌋
  let secs : ℤ := pyTrunc (pyMod seconds 60)
  let millis : ℤ := pyTrunc ((seconds - (pyTrunc seconds : ℚ)) * 1000)
  pyFormatInt hours 2 ++ ":" ++ pyFormatInt minutes 2 ++ ":" ++
    pyFormatInt secs 2 ++ "," ++ pyFormatInt millis 3

/-- Modelled from the spec for comparison with `seconds_to_srt_time`: the
spec's time conversion uses `floor` throughout — `hours = floor(s/3600)`,
`minutes = floor((s mod 3600)/60)`, `secs = floor(s mod 60)`,
`millis = floor((s - floor(s)) * 1000)` — with the same zero-padded
`HH:MM:SS,mmm` rendering. -/
def specSrtTime (seconds : ℚ) : String :=
  let hours : ℤ := ⌊seconds / 3600⌋
  let minutes : ℤ := ⌊pyMod seconds 3600 / 60⌋
  let secs : ℤ := ⌊pyMod seconds 60⌋
  let millis : ℤ := ⌊(seconds - (⌊seconds⌋ : ℚ)) * 1000⌋
  pyFormatInt hours 2 ++ ":" ++ pyFormatInt minutes 2 ++ ":" ++
    pyFormatInt secs 2 ++ "," ++ pyFormatInt millis 3

/-- One line of the `txt` export: `"[speaker] text"` when the segment's
speaker value is present and non-empty (Python truthiness of
`segment.get("speaker", "")`), else just the stripped text. -/
def txtLine (seg : Segment) : String :=
  let speaker := seg.speaker.getD ""
  let text := seg.text.trim
  if speaker ≠ "" then "[" ++ speaker ++ "] " ++ text ++ "\n"
  else text ++ "\n"

/-- The full content written by the `txt` branch of `save_results`. -/
def txtDump (data : Transcription) : String :=
  String.join (data.segments.map txtLine)

/-- One SRT cue: 1-based index, time range via `seconds_to_srt_time`, text
speaker-prefixed exactly as in the txt export, then a blank separator. -/
def srtBlock (idx : Nat) (seg : Segment) : String :=
  let start_time := seconds_to_srt_time seg.start
  let end_time := seconds_to_srt_time seg.stop
  let text := seg.text.trim
  let speaker := seg.speaker.getD ""
  let line := if speaker ≠ "" then "[" ++ speaker ++ "] " ++ text else text
  toString idx ++ "\n" ++ start_time ++ " --> " ++ end_time ++ "\n" ++
    line ++ "\n\n"

/-- The full content written by the `srt` branch of `save_results`
(`enumerate(segments, start=1)`). -/
def srtDump (data : Transcription) : String :=
  String.join (data.segments.enum.map fun p => srtBlock (p.1 + 1) p.2)

/-- The artifact `save_results` writes to the output path: the `json` branch
serializes the whole result dict (represented here by the data itself, the
serialization being injective), the `txt` and `srt` branches write the
rendered text. -/
inductive SavedFile where
  | json (content : Transcription)
  | txt (content : String)
  | srt (content : String)
  deriving DecidableEq, Repr

/-- `save_results`: an `if/elif` chain on the format string with no `else`
branch — a format other than `json`/`txt`/`srt` opens no file, writes
nothing, and raises nothing (the function just returns). -/
def save_results (data : Transcription) (format : String) : Option SavedFile :=
  if format = "json" then some (SavedFile.json data)
  else if format = "txt" then some (SavedFile.txt (txtDump data))
  else if format = "srt" then some (SavedFile.srt (srtDump data))
  else none

/-- The running-best fold underlying Python's `max(xs, key=...)` yields an
element of the traversed list (the seed counts as traversed). -/
lemma foldlMax_mem (x : String × ℚ) (xs : List (String × ℚ)) :
    xs.foldl (fun best y => if y.2 > best.2 then y else best) x ∈ x :: xs := by
  induction xs generalizing x with
  | nil => simp
  | cons y ys ih =>
    simp only [List.foldl_cons]
    rcases List.mem_cons.mp (ih (if y.2 > x.2 then y else x)) with h | h
    · rw [h]
      split
      · exact List.mem_cons_of_mem _ (List.mem_cons_self _ _)
      · exact List.mem_cons_self _ _
    · exact List.mem_cons_of_mem _ (List.mem_cons_of_mem _ h)

/-- The running-best fold dominates every traversed element's key. -/
lemma foldlMax_ge (x : String × ℚ) (xs : List (String × ℚ)) :
    ∀ p ∈ x :: xs,
      p.2 ≤ (xs.foldl (fun best y => if y.2 > best.2 then y else best) x).2 := by
  induction xs generalizing x with
  | nil =>
    intro p hp
    rw [List.mem_singleton.mp hp]
    exact le_refl _
  | cons y ys ih =>
    intro p hp
    simp only [List.foldl_cons]
    have hx : x.2 ≤ (if y.2 > x.2 then y else x).2 := by
      split
      · exact le_of_lt (by assumption)
      · exact le_refl _
    have hy : y.2 ≤ (if y.2 > x.2 then y else x).2 := by
      split
      · exact le_refl _
      · exact le_of_not_lt (by assumption)
    rcases List.mem_cons.mp hp with h | h
    · subst h
      exact le_trans hx (ih _ _ (List.mem_cons_self _ _))
    · rcases List.mem_cons.mp h with h' | h'
      · subst h'
        exact le_trans hy (ih _ _ (List.mem_cons_self _ _))
      · exact ih _ _ (List.mem_cons_of_mem _ h')

/-- C1, counterexample.  Segment `[0,3)` against turns `A:[0,1)`,
`B:[1,2.5)`, `A:[2,3)`: label `A` accumulates overlap `2` across its two
turns while `B` accumulates `1.5`, yet the code compares turn-by-turn and
assigns `B` — so the chosen label's accumulated overlap is strictly below
another label's, refuting the claim at this input. -/
theorem C1_counterexample :
    (assignSpeaker ⟨0, 3, "hi", none⟩
        [⟨0, 1, "A"⟩, ⟨1, (5 : ℚ)/2, "B"⟩, ⟨2, 3, "A"⟩]).speaker = some "B" ∧
    accumOverlap "B" ⟨0, 3, "hi", none⟩
        [⟨0, 1, "A"⟩, ⟨1, (5 : ℚ)/2, "B"⟩, ⟨2, 3, "A"⟩] <
    accumOverlap "A" ⟨0, 3, "hi", none⟩
        [⟨0, 1, "A"⟩, ⟨1, (5 : ℚ)/2, "B"⟩, ⟨2, 3, "A"⟩] := by
  constructor
  · norm_num [assignSpeaker, overlappingSpeakers, List.filterMap, pyMaxBySnd,
      List.foldl]
  · norm_num [accumOverlap, overlapDur, List.filter, List.foldl]

/-- C1, amended.  The Overlap Resolver does not accumulate overlap per
label: it assigns the speaker of the first turn attaining the maximum
individual overlap, so the chosen turn's individual overlap is greater than
or equal to every overlapping turn's individual overlap (while a label whose
summed overlap across several turns is larger can lose, as the
counterexample shows). -/
theorem C1_theorem (seg : Segment) (turns : List SpeakerTurn)
    (h : overlappingSpeakers seg turns ≠ []) :
    ∃ best : String × ℚ,
      pyMaxBySnd (overlappingSpeakers seg turns) = some best ∧
      (assignSpeaker seg turns).speaker = some best.1 ∧
      best ∈ overlappingSpeakers seg turns ∧
      ∀ p ∈ overlappingSpeakers seg turns, p.2 ≤ best.2 := by
  cases hov : overlappingSpeakers seg turns with
  | nil => exact absurd hov h
  | cons x xs =>
    refine ⟨xs.foldl (fun best y => if y.2 > best.2 then y else best) x,
      ?_, ?_, ?_, ?_⟩
    · rfl
    · unfold assignSpeaker
      rw [hov]
      rfl
    · exact foldlMax_mem x xs
    · exact foldlMax_ge x xs

/-- C1, witness for the amended theorem at segment `[0,3)` and a single
turn `A:[0,1)`. -/
theorem C1_witness :
    overlappingSpeakers ⟨0, 3, "hi", none⟩ [⟨0, 1, "A"⟩] ≠ [] ∧
    ∃ best : String × ℚ,
      pyMaxBySnd (overlappingSpeakers ⟨0, 3, "hi", none⟩ [⟨0, 1, "A"⟩]) =
        some best ∧
      (assignSpeaker ⟨0, 3, "hi", none⟩ [⟨0, 1, "A"⟩]).speaker = some best.1 ∧
      best ∈ overlappingSpeakers ⟨0, 3, "hi", none⟩ [⟨0, 1, "A"⟩] ∧
      ∀ p ∈ overlappingSpeakers ⟨0, 3, "hi", none⟩ [⟨0, 1, "A"⟩],
        p.2 ≤ best.2 :=
  ⟨by norm_num [overlappingSpeakers, List.filterMap],
   C1_theorem ⟨0, 3, "hi", none⟩ [⟨0, 1, "A"⟩]
     (by norm_num [overlappingSpeakers, List.filterMap])⟩

/-- C2, counterexample.  A present diarization result with an empty turn
list (`{"diarization": []}` is a truthy dict, so `if not diarization` does
not fire) does not leave the transcript unchanged: the single segment gets
`speaker = "UNKNOWN"` instead of an absent speaker field. -/
theorem C2_counterexample :
    align_transcription_with_speakers ⟨[⟨0, 1, "hello", none⟩], "fr"⟩
        (some []) ≠ ⟨[⟨0, 1, "hello", none⟩], "fr"⟩ ∧
    (align_transcription_with_speakers ⟨[⟨0, 1, "hello", none⟩], "fr"⟩
        (some [])).segments = [⟨0, 1, "hello", some "UNKNOWN"⟩] := by
  constructor
  · intro h
    have := congrArg (fun tr => tr.segments) h
    simp [align_transcription_with_speakers, assignSpeaker,
      overlappingSpeakers, pyMaxBySnd] at this
  · rfl

/-- C2, amended.  Only an absent (`None`) diarization result returns the
transcript unchanged with speaker fields untouched; a present result whose
turn list is empty instead labels every segment with the `"UNKNOWN"`
sentinel. -/
theorem C2_theorem (tr : Transcription) :
    align_transcription_with_speakers tr none = tr ∧
    (align_transcription_with_speakers tr (some [])).segments =
      tr.segments.map (fun s => { s with speaker := some "UNKNOWN" }) :=
  ⟨rfl, rfl⟩

/-- C4, confirmed.  With well-formed intervals (segment and every turn have
positive length, as the data model guarantees), a segment whose overlap
duration with every turn of a non-empty turn list is zero is assigned the
`"UNKNOWN"` sentinel — a present value, never an absent speaker field. -/
theorem C4_theorem (seg : Segment) (turns : List SpeakerTurn)
    (hseg : seg.start < seg.stop)
    (hwf : ∀ t ∈ turns, t.start < t.stop)
    (hne : turns ≠ [])
    (hov : ∀ t ∈ turns, overlapDur seg t = 0) :
    (assignSpeaker seg turns).speaker = some "UNKNOWN" := by
  have hnil : overlappingSpeakers seg turns = [] := by
    unfold overlappingSpeakers
    rw [List.filterMap_eq_nil_iff]
    intro t ht
    rw [if_neg]
    intro hcond
    have hlt : max seg.start t.start < min seg.stop t.stop :=
      max_lt (lt_min hseg hcond.1) (lt_min hcond.2 (hwf t ht))
    have h0 := hov t ht
    unfold overlapDur at h0
    have : min seg.stop t.stop - max seg.start t.start ≤ 0 := by
      by_contra hpos
      push_neg at hpos
      rw [max_eq_right (le_of_lt hpos)] at h0
      exact absurd h0 (ne_of_gt hpos)
    linarith [sub_pos.mpr hlt]
  unfold assignSpeaker
  rw [hnil]
  rfl

/-- C4, witness at segment `[0,1)` and the disjoint turn `A:[2,3)`. -/
theorem C4_witness :
    ((0 : ℚ) < 1 ∧ (∀ t ∈ [(⟨2, 3, "A"⟩ : SpeakerTurn)], t.start < t.stop) ∧
      (∀ t ∈ [(⟨2, 3, "A"⟩ : SpeakerTurn)],
        overlapDur ⟨0, 1, "hi", none⟩ t = 0)) ∧
    (assignSpeaker ⟨0, 1, "hi", none⟩ [⟨2, 3, "A"⟩]).speaker =
      some "UNKNOWN" :=
  ⟨⟨by norm_num, by norm_num, by norm_num [overlapDur]⟩,
   C4_theorem ⟨0, 1, "hi", none⟩ [⟨2, 3, "A"⟩] (by norm_num)
     (by norm_num) (by simp) (by norm_num [overlapDur])⟩

/-- C3, counterexample.  With a non-empty token, a credential failure on the
first backend load followed by an available successful outcome: the code
consumes only the first attempt and ends with no pipeline, while the spec's
one-shot retry would consume the second attempt and end with a loaded
pipeline. -/
theorem C3_counterexample :
    load_diarization_model "tok"
        [Except.error DiarizationError.credential, Except.ok ⟨"p"⟩] =
      (none, 1) ∧
    specLoadDiarizerRetry "tok"
        [Except.error DiarizationError.credential, Except.ok ⟨"p"⟩] =
      (some ⟨"p"⟩, 2) := by
  constructor <;> rfl

/-- C3, amended.  The orchestrator performs no credential prompt and no
retry: the backend load is invoked at most once per run, and any load
failure — credential-related or not — immediately results in no pipeline,
hence the fallback to an unlabeled transcript. -/
theorem C3_theorem (tok : String) (e : DiarizationError)
    (rest attempts : List (Except DiarizationError Pipeline)) :
    (load_diarization_model tok (Except.error e :: rest)).1 = none ∧
    (load_diarization_model tok attempts).2 ≤ 1 := by
  constructor
  · unfold load_diarization_model
    split
    · rfl
    · rfl
  · unfold load_diarization_model
    split
    · exact Nat.zero_le 1
    · cases attempts with
      | nil => exact Nat.zero_le 1
      | cons a rest2 => cases a <;> exact le_refl 1

/-- C5, counterexample.  A malformed turn `A:[5,3)` (`end < start`) is
accepted verbatim at ingestion by `diarize_audio` — no rejection, no error —
and attribution then silently uses it: the segment `[0,10)` passes the
overlap test against it and is labeled `"A"` (with overlap duration `-2`),
producing a labeled transcript instead of a rejected diarization result. -/
theorem C5_counterexample :
    diarize_audio (some ⟨"pyannote"⟩) (Except.ok [⟨5, 3, "A"⟩]) =
      some [⟨5, 3, "A"⟩] ∧
    (align_transcription_with_speakers ⟨[⟨0, 10, "hi", none⟩], "fr"⟩
        (some [⟨5, 3, "A"⟩])).segments = [⟨0, 10, "hi", some "A"⟩] := by
  constructor
  · rfl
  · norm_num [align_transcription_with_speakers, assignSpeaker,
      overlappingSpeakers, List.filterMap, pyMaxBySnd, List.foldl]

/-- C5, amended.  Malformed turns are not rejected at ingestion:
`diarize_audio` passes every track produced by the backend through verbatim,
with no validation of `end > start` (or of anything else), so malformed
turns flow silently into attribution. -/
theorem C5_theorem (p : Pipeline) (tracks : List SpeakerTurn) :
    diarize_audio (some p) (Except.ok tracks) = some tracks :=
  congrArg some (List.map_id tracks)

/-- Python `int()` agrees with `floor` on nonnegative values. -/
lemma pyTrunc_of_nonneg (q : ℚ) (h : 0 ≤ q) : pyTrunc q = ⌊q⌋ := by
  unfold pyTrunc
  rw [if_neg (not_lt.mpr h)]

/-- Python `%` with a positive divisor is nonnegative. -/
lemma pyMod_nonneg (a b : ℚ) (hb : 0 < b) : 0 ≤ pyMod a b := by
  unfold pyMod
  have h1 : ((⌊a / b⌋ : ℤ) : ℚ) ≤ a / b := Int.floor_le _
  have h2 : b * ((⌊a / b⌋ : ℤ) : ℚ) ≤ b * (a / b) :=
    mul_le_mul_of_nonneg_left h1 hb.le
  have h3 : b * (a / b) = a := by field_simp
  linarith

/-- C6, counterexample.  Negative input is not clamped: at `-1.5` the code
returns the malformed string `"-1:59:58,-500"` (Python floor-division and
modulo give hours `-1`, minutes `59`, seconds `58`, and `int()` truncation
gives milliseconds `-500`), not `"00:00:00,000"`. -/
theorem C6_counterexample :
    seconds_to_srt_time (-1.5 : ℚ) = "-1:59:58,-500" ∧
    seconds_to_srt_time (-1.5 : ℚ) ≠ "00:00:00,000" := by
  have h : seconds_to_srt_time (-1.5 : ℚ) = "-1:59:58,-500" := by
    unfold seconds_to_srt_time pyMod pyTrunc
    norm_num
    rfl
  exact ⟨h, by rw [h]; decide⟩

/-- C6, amended.  For every nonnegative input, `seconds_to_srt_time` renders
exactly the spec's floor formulas, zero-padded as `HH:MM:SS,mmm`; in
particular `seconds_to_srt_time 0 = "00:00:00,000"` and
`seconds_to_srt_time 3725.25 = "01:02:05,250"`.  (Negative input does not
raise, but is not clamped to zero — see the counterexample.) -/
theorem C6_theorem (q : ℚ) (hq : 0 ≤ q) :
    seconds_to_srt_time q = specSrtTime q ∧
    seconds_to_srt_time 0 = "00:00:00,000" ∧
    seconds_to_srt_time (3725.25 : ℚ) = "01:02:05,250" := by
  refine ⟨?_, ?_, ?_⟩
  · have hfrac : 0 ≤ (q - ((⌊q⌋ : ℤ) : ℚ)) * 1000 :=
      mul_nonneg (sub_nonneg.mpr (Int.floor_le q)) (by norm_num)
    simp only [seconds_to_srt_time, specSrtTime]
    rw [pyTrunc_of_nonneg (pyMod q 60) (pyMod_nonneg q 60 (by norm_num)),
      pyTrunc_of_nonneg q hq, pyTrunc_of_nonneg _ hfrac]
  · unfold seconds_to_srt_time pyMod pyTrunc
    norm_num
    rfl
  · unfold seconds_to_srt_time pyMod pyTrunc
    norm_num
    rfl

/-- C6, witness for the amended theorem at `3725.25`. -/
theorem C6_witness :
    (0 : ℚ) ≤ (3725.25 : ℚ) ∧
    (seconds_to_srt_time (3725.25 : ℚ) = specSrtTime (3725.25 : ℚ) ∧
      seconds_to_srt_time 0 = "00:00:00,000" ∧
      seconds_to_srt_time (3725.25 : ℚ) = "01:02:05,250") :=
  ⟨by norm_num, C6_theorem (3725.25 : ℚ) (by norm_num)⟩

/-- C7, confirmed.  For every transcript and every diarization result, the
attribution output contains exactly the same segments in the same order with
identical `start`, `end` and `text` fields; only `speaker` can differ
(and the language field — hence the whole surrounding result dict shape — is
also untouched). -/
theorem C7_theorem (tr : Transcription)
    (diarization : Option (List SpeakerTurn)) :
    ((align_transcription_with_speakers tr diarization).segments.map
        fun s => (s.start, s.stop, s.text)) =
      tr.segments.map (fun s => (s.start, s.stop, s.text)) ∧
    (align_transcription_with_speakers tr diarization).language =
      tr.language := by
  cases diarization with
  | none => exact ⟨rfl, rfl⟩
  | some turns =>
    constructor
    · simp only [align_transcription_with_speakers, List.map_map]
      rfl
    · rfl

/-- Re-attributing an already-attributed segment with the same turns gives
the same segment: the computation reads only `start` and `stop`, which
attribution never changes. -/
lemma assignSpeaker_idem (s : Segment) (turns : List SpeakerTurn) :
    assignSpeaker (assignSpeaker s turns) turns = assignSpeaker s turns :=
  rfl

/-- C8, confirmed.  Attribution is idempotent: feeding its own output back
with the same turn sequence reproduces that output exactly (and the function
is pure, so re-running on identical inputs trivially yields the identical
result). -/
theorem C8_theorem (tr : Transcription)
    (diarization : Option (List SpeakerTurn)) :
    align_transcription_with_speakers
        (align_transcription_with_speakers tr diarization) diarization =
      align_transcription_with_speakers tr diarization := by
  cases diarization with
  | none => rfl
  | some turns =>
    simp only [align_transcription_with_speakers, List.map_map]
    simp only [Function.comp_def, assignSpeaker_idem]

/-- C9, confirmed.  In quiet mode (`maybe_call` with `debug = False`) the
wrapped call runs under `suppress_output`: whatever it prints goes to the
throwaway buffer and never reaches the real standard output, its outcome —
return value or raised exception alike — is passed through unchanged, and
the `finally` block restores the previously installed `sys.stdout` on every
exit path. -/
theorem C9_theorem {E A : Type} (f : PyFunc E A) (st : OutState) :
    maybe_call f false st = suppress_output f st ∧
    (suppress_output f st).1 = f.outcome ∧
    (suppress_output f st).2.target = st.target ∧
    (suppress_output f st).2.realOut = st.realOut :=
  ⟨rfl, rfl, rfl, rfl⟩

/-- C10, confirmed.  `save_results` is an `if/elif` chain with no `else`:
for a format other than `json`, `txt` or `srt` it opens no file, writes
nothing and raises nothing, returning exactly as it does after a successful
export. -/
theorem C10_theorem (data : Transcription) (format : String)
    (h1 : format ≠ "json") (h2 : format ≠ "txt") (h3 : format ≠ "srt") :
    save_results data format = none := by
  unfold save_results
  rw [if_neg h1, if_neg h2, if_neg h3]

/-- C10, witness at the unsupported format `"xml"`. -/
theorem C10_witness :
    ("xml" ≠ "json" ∧ "xml" ≠ "txt" ∧ "xml" ≠ "srt") ∧
    save_results ⟨[], "fr"⟩ "xml" = none :=
  ⟨⟨by decide, by decide, by decide⟩,
   C10_theorem ⟨[], "fr"⟩ "xml" (by decide) (by decide) (by decide)⟩

end WhisperX
